import Mathlib

/-!
Shallow embedding of the scoring and gating engine of the portfolio-analyzer
repository (scripts/score_stock.py, scripts/technical_analysis.py,
utils/config.py, utils/helpers.py), together with theorems settling the
frozen claims about it.

Modelling conventions:
* Python floats are embedded as rationals (`ℚ`); a float that may be
  NaN/None is embedded as `Option ℚ` with `none` standing for NaN/None.
  IEEE comparisons against NaN are always false, which the `Option`
  comparison helpers below reproduce; `pd.isna x` becomes `x.isNone`.
* JSON dictionary lookups with a default (`d.get(k, 5)`) become
  `Option.getD`; Python's truthiness-based `x or 5` (which also replaces
  a present `0.0`) is embedded separately as `orFalsy`.
* Recommendation labels and confidence labels are inductive enums; they
  are stringly typed in the source, but only the six fixed label strings
  ever flow through the scoring core.
-/

namespace PortfolioAnalyzer

/-- Recommendation labels produced by the scoring pipeline
(`get_recommendation` plus the "INSUFFICIENT DATA" short-circuit). -/
inductive Reco where
  | STRONG_BUY
  | BUY
  | HOLD
  | SELL
  | STRONG_SELL
  | INSUFFICIENT_DATA
deriving DecidableEq, Repr

/-- Confidence labels from `compute_confidence`, plus the "N/A" used when
coverage is incomplete. -/
inductive Confidence where
  | HIGH
  | MEDIUM
  | LOW
  | NA
deriving DecidableEq, Repr

/-- Bullishness rank of a recommendation label:
STRONG SELL = 0 < SELL < HOLD < BUY < STRONG BUY = 4.
`INSUFFICIENT_DATA` is outside the trade ordering; it is given rank 5 and is
never produced or consumed by `applyGates`. -/
def recoRank : Reco → ℕ
  | .STRONG_SELL => 0
  | .SELL => 1
  | .HOLD => 2
  | .BUY => 3
  | .STRONG_BUY => 4
  | .INSUFFICIENT_DATA => 5

/-- `utils/config.py` THRESHOLDS table. -/
def THRESHOLDS_strong_buy : ℚ := 8
def THRESHOLDS_buy : ℚ := 13/2
def THRESHOLDS_hold : ℚ := 9/2
def THRESHOLDS_sell : ℚ := 3

/-- `utils/config.py` GATES table. -/
def GATES_trend_min_for_buy : ℚ := 5
def GATES_adx_weak_threshold : ℚ := 4
def GATES_volume_min_for_weak_trend : ℚ := 6
def GATES_news_hype_threshold : ℚ := 8
def GATES_tech_min_for_news_buy : ℚ := 5
def GATES_strong_buy_trend_min : ℚ := 7
def GATES_strong_buy_macd_min : ℚ := 6
def GATES_strong_buy_adx_min : ℚ := 6

/-- `utils/config.py` `get_recommendation(score)`: fixed threshold lookup
from the final numeric score to a label. -/
def get_recommendation (score : ℚ) : Reco :=
  if THRESHOLDS_strong_buy ≤ score then .STRONG_BUY
  else if THRESHOLDS_buy ≤ score then .BUY
  else if THRESHOLDS_hold ≤ score then .HOLD
  else if THRESHOLDS_sell ≤ score then .SELL
  else .STRONG_SELL

/-- `scripts/score_stock.py` `apply_gates`: the four ordered hard gates.
`none` score arguments are replaced by the neutral 5 before any comparison
(the `x if x is not None else 5` lines). Each gate tests the current,
possibly already-demoted recommendation and appends its flag when it
fires. -/
def apply_gates (recommendation : Reco)
    (trend_score macd_score adx_score volume_score technical_score news_score :
      Option ℚ) : Reco × List String :=
  let trend := trend_score.getD 5
  let macd := macd_score.getD 5
  let adx := adx_score.getD 5
  let volume := volume_score.getD 5
  let tech := technical_score.getD 5
  let news := news_score.getD 5
  let s1 : Reco × List String :=
    if trend < GATES_trend_min_for_buy ∧
        (recommendation = .BUY ∨ recommendation = .STRONG_BUY) then
      (.HOLD, ["weak_trend_gate"])
    else (recommendation, [])
  let s2 : Reco × List String :=
    if adx ≤ GATES_adx_weak_threshold ∧
        volume < GATES_volume_min_for_weak_trend ∧
        (s1.1 = .BUY ∨ s1.1 = .STRONG_BUY) then
      (.HOLD, s1.2 ++ ["trendless_no_volume_gate"])
    else s1
  let s3 : Reco × List String :=
    if GATES_news_hype_threshold ≤ news ∧
        tech < GATES_tech_min_for_news_buy ∧
        s2.1 = .BUY then
      (.HOLD, s2.2 ++ ["sentiment_without_confirmation"])
    else s2
  let s4 : Reco × List String :=
    if s3.1 = .STRONG_BUY ∧
        ¬(GATES_strong_buy_trend_min ≤ trend ∧
          GATES_strong_buy_macd_min ≤ macd ∧
          GATES_strong_buy_adx_min ≤ adx) then
      (.BUY, s3.2 ++ ["strong_buy_alignment_failed"])
    else s3
  s4

/-- `scripts/score_stock.py` `compute_confidence(scores)`: the three
sub-scores are fetched with `scores.get(k, 5)` (missing key → 5), bullish
and bearish signals are counted with generator sums, and the five rules
run in source order. -/
def compute_confidence (trendS macdS adxS : Option ℚ) : Confidence :=
  let trend := trendS.getD 5
  let macd := macdS.getD 5
  let adx := adxS.getD 5
  let bullish : ℕ :=
    (if 6 ≤ trend then 1 else 0) + (if 6 ≤ macd then 1 else 0) +
      (if 6 ≤ adx then 1 else 0)
  let bearish : ℕ :=
    (if trend ≤ 4 then 1 else 0) + (if macd ≤ 4 then 1 else 0) +
      (if adx ≤ 4 then 1 else 0)
  if 0 < bullish ∧ 0 < bearish then .LOW
  else if 7 ≤ macd ∧ trend < 5 then .LOW
  else if adx < GATES_adx_weak_threshold then .LOW
  else if 3 ≤ bullish ∨ 3 ≤ bearish then .HIGH
  else .MEDIUM

/-- `scripts/score_stock.py` `apply_influence_caps`: caps news at 6.0 and
fundamentals at 7.0 when the technical score is below the
`tech_min_for_news_buy` threshold; returns
(fundamental, news, legal). -/
def apply_influence_caps (technical_score fundamental_score news_score
    legal_score : ℚ) : ℚ × ℚ × ℚ :=
  if technical_score < GATES_tech_min_for_news_buy then
    (min fundamental_score 7, min news_score 6, legal_score)
  else
    (fundamental_score, news_score, legal_score)

/-- IEEE-style strict less-than on possibly-NaN values: any comparison
involving NaN (`none`) is false. -/
def oLt (a b : Option ℚ) : Prop :=
  match a, b with
  | some x, some y => x < y
  | _, _ => False

instance (a b : Option ℚ) : Decidable (oLt a b) := by
  unfold oLt
  match a, b with
  | some x, some y => exact inferInstanceAs (Decidable (x < y))
  | some _, none => exact inferInstanceAs (Decidable False)
  | none, some _ => exact inferInstanceAs (Decidable False)
  | none, none => exact inferInstanceAs (Decidable False)

/-- `scripts/technical_analysis.py` `score_rsi`: trend-aligned RSI table;
NaN input returns the neutral 5. -/
def score_rsi (rsi : Option ℚ) : ℤ :=
  match rsi with
  | none => 5
  | some r =>
    if r < 25 then 4
    else if r < 35 then 7
    else if r < 55 then 6
    else if r < 70 then 5
    else if r < 80 then 4
    else 3

/-- `scripts/technical_analysis.py` `score_macd`: zero-line aware MACD
table. NaN macd or signal returns 5; a NaN previous macd makes `rising`
default to true; `prev_signal` is accepted but unused, as in the source. -/
def score_macd (macd signal prev_macd prev_signal : Option ℚ) : ℤ :=
  match macd, signal with
  | some m, some s =>
    let _ := prev_signal
    let macd_above_signal : Bool := decide (s < m)
    let rising : Bool :=
      match prev_macd with
      | none => true
      | some p => decide (p < m)
    let above_zero : Bool := decide (0 < m)
    if macd_above_signal ∧ rising ∧ above_zero then 9
    else if macd_above_signal ∧ rising then 7
    else if macd_above_signal then 5
    else if above_zero then 4
    else 2
  | _, _ => 5

/-- `scripts/technical_analysis.py` `score_trend`: price vs SMA50 vs SMA200
case split. NaN SMA50 returns 5; NaN SMA200 degrades to a binary
close-vs-SMA50 score; every comparison involving a NaN close is false
(IEEE), so such inputs fall through the chain. -/
def score_trend (close sma50 sma200 : Option ℚ) : ℤ :=
  match sma50 with
  | none => 5
  | some s50 =>
    match sma200 with
    | none => if oLt (some s50) close then 7 else 3
    | some s200 =>
      if oLt (some s50) close ∧ s200 < s50 then 9
      else if oLt (some s200) close ∧ s50 < s200 then 7
      else if oLt (some s50) close ∧ s50 < s200 then 5
      else if s200 < s50 ∧ oLt close (some s50) then 5
      else if oLt close (some s50) ∧ s50 < s200 then 2
      else 4

/-- `scripts/technical_analysis.py` `score_bollinger`: trend-neutral %B
table; NaN input returns 5. -/
def score_bollinger (pctb : Option ℚ) : ℤ :=
  match pctb with
  | none => 5
  | some b =>
    if b < 0 then 3
    else if b < 1/5 then 5
    else if b < 1/2 then 6
    else if b < 4/5 then 6
    else if b ≤ 1 then 5
    else 4

/-- `scripts/technical_analysis.py` `score_adx`: trend-strength qualifier.
NaN ADX returns 5; if either directional index is NaN, `uptrend` defaults
to true. -/
def score_adx (adx plus_di minus_di : Option ℚ) : ℤ :=
  match adx with
  | none => 5
  | some a =>
    let uptrend : Bool :=
      match plus_di, minus_di with
      | some p, some m => decide (m < p)
      | _, _ => true
    if 30 < a ∧ uptrend then 9
    else if 25 < a ∧ uptrend then 7
    else if 25 < a ∧ ¬(uptrend = true) then 2
    else if 20 ≤ a then 5
    else 4

/-- `scripts/technical_analysis.py` `score_volume`: volume-ratio table
split by up/down day; NaN ratio returns 5. -/
def score_volume (volume_ratio : Option ℚ) (is_up_day : Bool) : ℤ :=
  match volume_ratio with
  | none => 5
  | some r =>
    if 2 < r then (if is_up_day then 9 else 2)
    else if 3/2 < r then (if is_up_day then 7 else 4)
    else if 1 < r then 5
    else 5

/-- Python's `round` (used as `round(x, 1)` via `bankers_round (10*x) / 10`):
round half to even. -/
def bankers_round (x : ℚ) : ℤ :=
  let f : ℤ := ⌊x⌋
  let r : ℚ := x - f
  if r < 1/2 then f
  else if 1/2 < r then f + 1
  else if f % 2 = 0 then f else f + 1

/-- `round(x, 1)`: round to one decimal place, half to even. -/
def round1 (x : ℚ) : ℚ := (bankers_round (10 * x) : ℚ) / 10

/-- Python truthiness fallback `x or 5` on an optional float: `None` and the
falsy `0.0` both become 5. Used at the `apply_influence_caps` call sites in
`score_stock`. -/
def orFalsy (x : Option ℚ) : ℚ :=
  match x with
  | none => 5
  | some v => if v = 0 then 5 else v

/-- One component-weight table from `utils/config.py`. -/
structure Weights where
  technical : ℚ
  fundamental : ℚ
  news_sentiment : ℚ
  legal_corporate : ℚ
deriving DecidableEq, Repr

/-- `utils/config.py` COMPONENT_WEIGHTS (the "default" profile). -/
def COMPONENT_WEIGHTS : Weights := ⟨35/100, 30/100, 20/100, 15/100⟩

/-- `utils/config.py` SCORING_PROFILES["watchlist_swing"]. -/
def WATCHLIST_SWING_WEIGHTS : Weights := ⟨60/100, 20/100, 10/100, 10/100⟩

/-- `utils/config.py` SCORING_PROFILES["portfolio_long_term"]. -/
def PORTFOLIO_LONG_TERM_WEIGHTS : Weights := ⟨25/100, 40/100, 15/100, 20/100⟩

/-- `utils/config.py` `get_component_weights(profile)`: `None` or the falsy
empty string select "default"; an unknown key raises `ValueError`
(embedded as `Except.error`). Profile strings are modelled as already
stripped of surrounding whitespace. -/
def get_component_weights (profile : Option String) : Except String Weights :=
  let key := match profile with
    | none => "default"
    | some s => if s = "" then "default" else s
  if key = "default" then .ok COMPONENT_WEIGHTS
  else if key = "watchlist_swing" then .ok WATCHLIST_SWING_WEIGHTS
  else if key = "portfolio_long_term" then .ok PORTFOLIO_LONG_TERM_WEIGHTS
  else .error ("Unknown scoring profile: " ++ key)

/-- The inputs `score_stock` extracts from the upstream artifacts:
the four component scores after `normalize_score` (`none` = artifact
absent or score field missing/non-numeric), the individual technical
indicator sub-scores from the technical artifact's `scores` dict
(`none` = key absent, in which case `.get(k, 5)` supplies 5), and the
legal artifact's severe-red-flag boolean. -/
structure ScoreInputs where
  technical_score : Option ℚ
  fundamental_score : Option ℚ
  news_score : Option ℚ
  legal_score : Option ℚ
  trend_score : Option ℚ
  macd_score : Option ℚ
  adx_score : Option ℚ
  volume_score : Option ℚ
  has_red_flag : Bool
deriving DecidableEq, Repr

/-- `coverage_count`: how many of the four component scores are present. -/
def coverage_count (inp : ScoreInputs) : ℕ :=
  (if inp.technical_score.isSome then 1 else 0) +
    (if inp.fundamental_score.isSome then 1 else 0) +
    (if inp.news_score.isSome then 1 else 0) +
    (if inp.legal_score.isSome then 1 else 0)

/-- The fundamental score entering `active_scores`: present iff the raw
fundamental score is present; capped through `apply_influence_caps` when
the technical score is also present (`score_stock` lines 439–443). -/
def fundamental_used (inp : ScoreInputs) : Option ℚ :=
  match inp.technical_score, inp.fundamental_score with
  | some t, some f =>
      some (apply_influence_caps t f (orFalsy inp.news_score)
        (orFalsy inp.legal_score)).1
  | _, f => f

/-- The news score entering `active_scores`: present iff the raw news score
is present; capped through `apply_influence_caps` when the technical score
is also present (`score_stock` lines 444–448). -/
def news_used (inp : ScoreInputs) : Option ℚ :=
  match inp.technical_score, inp.news_score with
  | some t, some n =>
      some (apply_influence_caps t (orFalsy inp.fundamental_score) n
        (orFalsy inp.legal_score)).2.1
  | _, n => n

/-- The (weight, score) pairs for the present components, in the fixed
technical/fundamental/news/legal order of `score_stock` lines 404–415 and
438–448. -/
def active_pairs (inp : ScoreInputs) (w : Weights) : List (ℚ × ℚ) :=
  (match inp.technical_score with
    | some t => [(w.technical, t)]
    | none => []) ++
  (match fundamental_used inp with
    | some f => [(w.fundamental, f)]
    | none => []) ++
  (match news_used inp with
    | some n => [(w.news_sentiment, n)]
    | none => []) ++
  (match inp.legal_score with
    | some l => [(w.legal_corporate, l)]
    | none => [])

/-- `total_weight = sum(active_weights.values())`. -/
def total_weight (inp : ScoreInputs) (w : Weights) : ℚ :=
  ((active_pairs inp w).map Prod.fst).sum

/-- The renormalized weights `{k: v / total_weight}` actually used in the
weighted sum, as a list in component order. -/
def normalized_weights (inp : ScoreInputs) (w : Weights) : List ℚ :=
  (active_pairs inp w).map (fun p => p.1 / total_weight inp w)

/-- The weighted sum of `score_stock` lines 450–458: present component
scores times renormalized weights, or the neutral 5.0 when no component
is present. -/
def raw_weighted (inp : ScoreInputs) (w : Weights) : ℚ :=
  if 0 < total_weight inp w then
    ((active_pairs inp w).map
      (fun p => p.2 * (p.1 / total_weight inp w))).sum
  else 5

/-- The scoring fields of the output record of `score_stock`. -/
structure ScoreOutput where
  overall_score : ℚ
  recommendation : Reco
  confidence : Confidence
  gate_flags : List String
  coverage : ℕ
deriving DecidableEq, Repr

/-- The scoring core of `score_stock` (lines 400–489) after the component
weights have been resolved: weighted sum over present components,
severe-red-flag cap, rounding, the coverage short-circuit, threshold
recommendation, gates, and confidence. -/
def score_stock_core (inp : ScoreInputs) (w : Weights) : ScoreOutput :=
  let overall :=
    round1 (if inp.has_red_flag then min (raw_weighted inp w) 5
            else raw_weighted inp w)
  if coverage_count inp < 4 then
    { overall_score := overall
      recommendation := .INSUFFICIENT_DATA
      confidence := .NA
      gate_flags := ["missing_data"]
      coverage := coverage_count inp }
  else
    let rec0 := get_recommendation overall
    let gated := apply_gates rec0
      (some (inp.trend_score.getD 5)) (some (inp.macd_score.getD 5))
      (some (inp.adx_score.getD 5)) (some (inp.volume_score.getD 5))
      inp.technical_score inp.news_score
    { overall_score := overall
      recommendation := gated.1
      confidence := compute_confidence inp.trend_score inp.macd_score
        inp.adx_score
      gate_flags := gated.2
      coverage := coverage_count inp }

/-- `score_stock(symbol, broker, profile)` as seen by the CLI: resolving an
unknown profile name raises (`Except.error`); otherwise the scoring core
runs and returns a record. Missing upstream artifacts are already encoded
as `none` fields of `ScoreInputs` and raise nothing. -/
def score_stock (inp : ScoreInputs) (profile : Option String) :
    Except String ScoreOutput :=
  match get_component_weights profile with
  | .ok w => .ok (score_stock_core inp w)
  | .error e => .error e

/-- Exit code of `main` in `scripts/score_stock.py`: 1 when no symbol
argument is given; otherwise 1 exactly when `score_stock` raises (the
`except` branch calls `sys.exit(1)`), and 0 on the success path. The
`ScoreInputs` argument carries the content of the upstream artifacts;
absent artifacts are `none` fields and do not raise. -/
def main_exit_code (has_symbol_arg : Bool) (profile : Option String)
    (inp : ScoreInputs) : ℕ :=
  if ¬ (has_symbol_arg = true) then 1
  else
    match score_stock inp profile with
    | .ok _ => 0
    | .error _ => 1

/-! Claim-side reference formulations, written from the claims' wording and
compared with the source embeddings above. -/

/-- State of the gate engine: current recommendation plus the append-only
flag log. -/
structure GateState where
  recommendation : Reco
  flags : List String
deriving DecidableEq, Repr

/-- Claim C3 gate (1): trend < 5 and recommendation in {BUY, STRONG BUY}
demotes to HOLD with flag weak_trend_gate. -/
def weak_trend_gate_step (trend : ℚ) (s : GateState) : GateState :=
  if trend < 5 ∧ (s.recommendation = .BUY ∨ s.recommendation = .STRONG_BUY)
  then { recommendation := .HOLD, flags := s.flags ++ ["weak_trend_gate"] }
  else s

/-- Claim C3 gate (2): adx ≤ 4 and volume < 6 and recommendation in
{BUY, STRONG BUY} demotes to HOLD with flag trendless_no_volume_gate. -/
def trendless_no_volume_gate_step (adx volume : ℚ) (s : GateState) :
    GateState :=
  if adx ≤ 4 ∧ volume < 6 ∧
      (s.recommendation = .BUY ∨ s.recommendation = .STRONG_BUY)
  then { recommendation := .HOLD,
         flags := s.flags ++ ["trendless_no_volume_gate"] }
  else s

/-- Claim C3 gate (3): news ≥ 8 and technical < 5 and recommendation == BUY
demotes to HOLD with flag sentiment_without_confirmation. -/
def sentiment_gate_step (news tech : ℚ) (s : GateState) : GateState :=
  if 8 ≤ news ∧ tech < 5 ∧ s.recommendation = .BUY
  then { recommendation := .HOLD,
         flags := s.flags ++ ["sentiment_without_confirmation"] }
  else s

/-- Claim C3 gate (4): recommendation == STRONG BUY and not
(trend ≥ 7 and macd ≥ 6 and adx ≥ 6) demotes to BUY with flag
strong_buy_alignment_failed. -/
def strong_buy_alignment_step (trend macd adx : ℚ) (s : GateState) :
    GateState :=
  if s.recommendation = .STRONG_BUY ∧ ¬(7 ≤ trend ∧ 6 ≤ macd ∧ 6 ≤ adx)
  then { recommendation := .BUY,
         flags := s.flags ++ ["strong_buy_alignment_failed"] }
  else s

/-- The gate engine as claim C3 words it: exactly four gates, in this fixed
order, each evaluated against the already-demoted recommendation, any
missing score treated as 5 for the comparisons. -/
def apply_gates_claim (recommendation : Reco)
    (trend_score macd_score adx_score volume_score technical_score news_score :
      Option ℚ) : Reco × List String :=
  let st :=
    strong_buy_alignment_step (trend_score.getD 5) (macd_score.getD 5)
      (adx_score.getD 5)
      (sentiment_gate_step (news_score.getD 5) (technical_score.getD 5)
        (trendless_no_volume_gate_step (adx_score.getD 5)
          (volume_score.getD 5)
          (weak_trend_gate_step (trend_score.getD 5)
            { recommendation := recommendation, flags := [] })))
  (st.recommendation, st.flags)

/-- The confidence estimator as claim C5 words it: conflict (at least one
score ≥ 6 and at least one ≤ 4 among trend, macd, adx) before anything
else; then macd ≥ 7 with trend < 5; then adx < 4; then all three in the
same bullish (≥ 6) or bearish (≤ 4) bucket; else MEDIUM. -/
def compute_confidence_claim (trendS macdS adxS : Option ℚ) : Confidence :=
  let trend := trendS.getD 5
  let macd := macdS.getD 5
  let adx := adxS.getD 5
  if (6 ≤ trend ∨ 6 ≤ macd ∨ 6 ≤ adx) ∧
      (trend ≤ 4 ∨ macd ≤ 4 ∨ adx ≤ 4) then .LOW
  else if 7 ≤ macd ∧ trend < 5 then .LOW
  else if adx < 4 then .LOW
  else if (6 ≤ trend ∧ 6 ≤ macd ∧ 6 ≤ adx) ∨
      (trend ≤ 4 ∧ macd ≤ 4 ∧ adx ≤ 4) then .HIGH
  else .MEDIUM

/-! ## Theorems settling the claims -/

/-! Helper lemmas relating the sequential `apply_gates` transcription to the
four gate steps, and rank bounds for each step. -/

theorem pairify_weak_trend (trend : ℚ) (recommendation : Reco) :
    (if trend < GATES_trend_min_for_buy ∧
        (recommendation = Reco.BUY ∨ recommendation = Reco.STRONG_BUY)
      then ((Reco.HOLD), ["weak_trend_gate"])
      else (recommendation, ([] : List String)))
    = ((weak_trend_gate_step trend
        { recommendation := recommendation, flags := [] }).recommendation,
       (weak_trend_gate_step trend
        { recommendation := recommendation, flags := [] }).flags) := by
  unfold weak_trend_gate_step GATES_trend_min_for_buy
  split_ifs <;> rfl

theorem pairify_trendless (adx volume : ℚ) (s : GateState) :
    (if adx ≤ GATES_adx_weak_threshold ∧
        volume < GATES_volume_min_for_weak_trend ∧
        (s.recommendation = Reco.BUY ∨ s.recommendation = Reco.STRONG_BUY)
      then ((Reco.HOLD), s.flags ++ ["trendless_no_volume_gate"])
      else (s.recommendation, s.flags))
    = ((trendless_no_volume_gate_step adx volume s).recommendation,
       (trendless_no_volume_gate_step adx volume s).flags) := by
  unfold trendless_no_volume_gate_step GATES_adx_weak_threshold
    GATES_volume_min_for_weak_trend
  split_ifs <;> rfl

theorem pairify_sentiment (news tech : ℚ) (s : GateState) :
    (if GATES_news_hype_threshold ≤ news ∧
        tech < GATES_tech_min_for_news_buy ∧
        s.recommendation = Reco.BUY
      then ((Reco.HOLD), s.flags ++ ["sentiment_without_confirmation"])
      else (s.recommendation, s.flags))
    = ((sentiment_gate_step news tech s).recommendation,
       (sentiment_gate_step news tech s).flags) := by
  unfold sentiment_gate_step GATES_news_hype_threshold
    GATES_tech_min_for_news_buy
  split_ifs <;> rfl

theorem pairify_alignment (trend macd adx : ℚ) (s : GateState) :
    (if s.recommendation = Reco.STRONG_BUY ∧
        ¬(GATES_strong_buy_trend_min ≤ trend ∧
          GATES_strong_buy_macd_min ≤ macd ∧
          GATES_strong_buy_adx_min ≤ adx)
      then ((Reco.BUY), s.flags ++ ["strong_buy_alignment_failed"])
      else (s.recommendation, s.flags))
    = ((strong_buy_alignment_step trend macd adx s).recommendation,
       (strong_buy_alignment_step trend macd adx s).flags) := by
  unfold strong_buy_alignment_step GATES_strong_buy_trend_min
    GATES_strong_buy_macd_min GATES_strong_buy_adx_min
  split_ifs <;> rfl

/-- The sequential `apply_gates` equals the four-step gate state machine.
Shared scaffolding for the gate claims. -/
theorem apply_gates_eq_steps (recommendation : Reco)
    (t m a v te n : Option ℚ) :
    apply_gates recommendation t m a v te n =
      apply_gates_claim recommendation t m a v te n := by
  simp only [apply_gates, apply_gates_claim]
  rw [pairify_weak_trend]
  dsimp only
  rw [pairify_trendless]
  dsimp only
  rw [pairify_sentiment]
  dsimp only
  rw [pairify_alignment]

theorem weak_trend_gate_step_rank (trend : ℚ) (s : GateState) :
    recoRank (weak_trend_gate_step trend s).recommendation ≤
      recoRank s.recommendation := by
  unfold weak_trend_gate_step
  split_ifs with h
  · rcases h with ⟨-, h | h⟩ <;> simp [h, recoRank]
  · exact le_refl _

theorem trendless_no_volume_gate_step_rank (adx volume : ℚ) (s : GateState) :
    recoRank (trendless_no_volume_gate_step adx volume s).recommendation ≤
      recoRank s.recommendation := by
  unfold trendless_no_volume_gate_step
  split_ifs with h
  · rcases h with ⟨-, -, h | h⟩ <;> simp [h, recoRank]
  · exact le_refl _

theorem sentiment_gate_step_rank (news tech : ℚ) (s : GateState) :
    recoRank (sentiment_gate_step news tech s).recommendation ≤
      recoRank s.recommendation := by
  unfold sentiment_gate_step
  split_ifs with h
  · simp [h.2.2, recoRank]
  · exact le_refl _

theorem strong_buy_alignment_step_rank (trend macd adx : ℚ) (s : GateState) :
    recoRank (strong_buy_alignment_step trend macd adx s).recommendation ≤
      recoRank s.recommendation := by
  unfold strong_buy_alignment_step
  split_ifs with h
  · simp [h.1, recoRank]
  · exact le_refl _

/-- C1: for every input to `score_stock`, if fewer than 4 of the component
scores are present, the output record has recommendation INSUFFICIENT
DATA, gate_flags equal to the single flag missing_data, and confidence
N/A, regardless of the computed overall_score. -/
theorem C1_insufficient_data (inp : ScoreInputs) (w : Weights)
    (h : coverage_count inp < 4) :
    (score_stock_core inp w).recommendation = .INSUFFICIENT_DATA ∧
    (score_stock_core inp w).gate_flags = ["missing_data"] ∧
    (score_stock_core inp w).confidence = .NA := by
  unfold score_stock_core
  simp [h]

/-- C1 witness: a concrete input with three of four components present. -/
theorem C1_insufficient_data_witness :
    coverage_count ⟨some 9, some 9, some 9, none, some 9, some 9, some 9,
      some 9, false⟩ < 4 ∧
    (score_stock_core ⟨some 9, some 9, some 9, none, some 9, some 9, some 9,
      some 9, false⟩ COMPONENT_WEIGHTS).recommendation =
      .INSUFFICIENT_DATA := by
  refine ⟨by decide, ?_⟩
  exact (C1_insufficient_data _ COMPONENT_WEIGHTS (by decide)).1

/-- C2: `apply_gates` never upgrades: under the bullishness ordering
STRONG SELL < SELL < HOLD < BUY < STRONG BUY, the output recommendation's
rank never exceeds the input's, for every label and every combination of
scores (including missing ones). -/
theorem C2_gates_never_upgrade (recommendation : Reco)
    (t m a v te n : Option ℚ) :
    recoRank (apply_gates recommendation t m a v te n).1 ≤
      recoRank recommendation := by
  rw [apply_gates_eq_steps]
  simp only [apply_gates_claim]
  refine le_trans (strong_buy_alignment_step_rank _ _ _ _) ?_
  refine le_trans (sentiment_gate_step_rank _ _ _) ?_
  refine le_trans (trendless_no_volume_gate_step_rank _ _ _) ?_
  exact weak_trend_gate_step_rank _ _

/-- C3: `apply_gates` applies exactly the four gates, in the fixed order
weak_trend → trendless_no_volume → sentiment_without_confirmation →
strong_buy_alignment, each appending its flag, each evaluated against the
already-demoted recommendation, with any missing score treated as 5: it
coincides with the four-step gate state machine transcribed from the
claim. -/
theorem C3_gate_order_and_semantics (recommendation : Reco)
    (t m a v te n : Option ℚ) :
    apply_gates recommendation t m a v te n =
      apply_gates_claim recommendation t m a v te n :=
  apply_gates_eq_steps recommendation t m a v te n

/-- C4 counterexample: `score_trend` with a NaN close price and valid SMAs
does not return 5 — every comparison against NaN is false, so the case
chain falls through to the sideways branch and returns 4. -/
theorem C4_counterexample_nan_close :
    score_trend none (some 10) (some 9) = 4 ∧
      score_trend none (some 10) (some 9) ≠ 5 := by
  decide

/-- C4 amended: every indicator scoring function returns an integer in
[1,10], and a NaN/None primary input returns exactly 5 for score_rsi,
score_macd (macd or signal line), score_bollinger, score_adx and
score_volume, as does score_trend when SMA50 is NaN; but score_trend with
a NaN close does not return 5: it returns 4 when both SMAs are present,
and 3 when only SMA50 is. -/
theorem C4_indicator_scores_amended :
    (∀ r, 1 ≤ score_rsi r ∧ score_rsi r ≤ 10) ∧
    (∀ m s pm ps, 1 ≤ score_macd m s pm ps ∧ score_macd m s pm ps ≤ 10) ∧
    (∀ c s50 s200, 1 ≤ score_trend c s50 s200 ∧
      score_trend c s50 s200 ≤ 10) ∧
    (∀ b, 1 ≤ score_bollinger b ∧ score_bollinger b ≤ 10) ∧
    (∀ a p mi, 1 ≤ score_adx a p mi ∧ score_adx a p mi ≤ 10) ∧
    (∀ v u, 1 ≤ score_volume v u ∧ score_volume v u ≤ 10) ∧
    score_rsi none = 5 ∧
    (∀ s pm ps, score_macd none s pm ps = 5) ∧
    (∀ m pm ps, score_macd m none pm ps = 5) ∧
    score_bollinger none = 5 ∧
    (∀ p mi, score_adx none p mi = 5) ∧
    (∀ u, score_volume none u = 5) ∧
    (∀ c s200, score_trend c none s200 = 5) ∧
    (∀ a b : ℚ, score_trend none (some a) (some b) = 4) ∧
    (∀ a : ℚ, score_trend none (some a) none = 3) := by
  refine ⟨?_, ?_, ?_, ?_, ?_, ?_, rfl, ?_, ?_, rfl, ?_, ?_, ?_, ?_, ?_⟩
  · intro r
    cases r <;> simp only [score_rsi] <;> (try split_ifs) <;> norm_num
  · intro m s pm ps
    cases m <;> cases s <;> simp only [score_macd] <;> (try split_ifs) <;>
      norm_num
  · intro c s50 s200
    cases s50 <;> (try cases s200) <;> simp only [score_trend] <;>
      (try split_ifs) <;> norm_num
  · intro b
    cases b <;> simp only [score_bollinger] <;> (try split_ifs) <;> norm_num
  · intro a p mi
    cases a <;> simp only [score_adx] <;> (try split_ifs) <;> norm_num
  · intro v u
    cases v <;> simp only [score_volume] <;> (try split_ifs) <;> norm_num
  · intro s pm ps
    cases s <;> rfl
  · intro m pm ps
    cases m <;> rfl
  · intro p mi
    rfl
  · intro u
    rfl
  · intro c s200
    rfl
  · intro a b
    simp [score_trend, oLt]
  · intro a
    simp [score_trend, oLt]

/-- C5: `compute_confidence` evaluates its rules in the specified order —
conflict first (LOW), then momentum-without-direction (LOW), then weak ADX
(LOW), then full alignment (HIGH), else MEDIUM — i.e. it coincides with
the rule-ordered function transcribed from the claim; and whenever the
conflict condition holds the result is LOW. -/
theorem C5_confidence_rule_order (trendS macdS adxS : Option ℚ) :
    compute_confidence trendS macdS adxS =
      compute_confidence_claim trendS macdS adxS ∧
    ((6 ≤ trendS.getD 5 ∨ 6 ≤ macdS.getD 5 ∨ 6 ≤ adxS.getD 5) →
      (trendS.getD 5 ≤ 4 ∨ macdS.getD 5 ≤ 4 ∨ adxS.getD 5 ≤ 4) →
      compute_confidence trendS macdS adxS = .LOW) := by
  constructor
  · simp only [compute_confidence, compute_confidence_claim]
    by_cases h1 : (6:ℚ) ≤ trendS.getD 5 <;>
    by_cases h2 : (6:ℚ) ≤ macdS.getD 5 <;>
    by_cases h3 : (6:ℚ) ≤ adxS.getD 5 <;>
    by_cases h4 : trendS.getD 5 ≤ (4:ℚ) <;>
    by_cases h5 : macdS.getD 5 ≤ (4:ℚ) <;>
    by_cases h6 : adxS.getD 5 ≤ (4:ℚ) <;>
    simp [h1, h2, h3, h4, h5, h6, GATES_adx_weak_threshold]
  · intro hb hr
    simp only [compute_confidence]
    rw [if_pos]
    constructor
    · rcases hb with h | h | h <;> simp [h]
    · rcases hr with h | h | h <;> simp [h]

/-- C5 witness: a conflicting input (trend bullish, macd bearish) is LOW. -/
theorem C5_confidence_rule_order_witness :
    compute_confidence (some 7) (some 3) (some 5) = .LOW := by
  refine (C5_confidence_rule_order (some 7) (some 3) (some 5)).2 ?_ ?_
  · left
    norm_num
  · right
    left
    norm_num

/-- C6: with a present technical score below 5, the news score entering the
weighted sum is capped at min(news, 6) and the fundamental score at
min(fundamental, 7); with technical ≥ 5 both pass through unchanged; and a
missing fundamental or news component stays missing. -/
theorem C6_influence_caps (inp : ScoreInputs) :
    (∀ t, inp.technical_score = some t →
      fundamental_used inp =
        (if t < 5 then inp.fundamental_score.map (fun f => min f 7)
         else inp.fundamental_score) ∧
      news_used inp =
        (if t < 5 then inp.news_score.map (fun n => min n 6)
         else inp.news_score)) ∧
    (fundamental_used inp = none ↔ inp.fundamental_score = none) ∧
    (news_used inp = none ↔ inp.news_score = none) := by
  obtain ⟨tS, fS, nS, lS, tr, mc, ad, vo, rf⟩ := inp
  refine ⟨?_, ?_, ?_⟩
  · rintro t rfl
    constructor
    · cases fS with
      | none => simp [fundamental_used]
      | some f =>
        simp [fundamental_used, apply_influence_caps,
          GATES_tech_min_for_news_buy]
        split_ifs <;> simp
    · cases nS with
      | none => simp [news_used]
      | some n =>
        simp [news_used, apply_influence_caps,
          GATES_tech_min_for_news_buy]
        split_ifs <;> simp
  · cases tS <;> cases fS <;> simp [fundamental_used]
  · cases tS <;> cases nS <;> simp [news_used]

/-- C6 witness: technical 3 (< 5) caps fundamental 9 to 7 and news 9 to 6;
a missing legal component plays no role. -/
theorem C6_influence_caps_witness :
    fundamental_used ⟨some 3, some 9, some 9, some 8, some 5, some 5, some 5,
      some 5, false⟩ = some 7 ∧
    news_used ⟨some 3, some 9, some 9, some 8, some 5, some 5, some 5,
      some 5, false⟩ = some 6 := by
  have h := (C6_influence_caps ⟨some 3, some 9, some 9, some 8, some 5,
    some 5, some 5, some 5, false⟩).1 3 rfl
  rw [h.1, h.2]
  norm_num

/-- No gate fires on a HOLD recommendation: every gate requires the current
recommendation to be BUY or STRONG BUY. -/
theorem apply_gates_hold (t m a v te n : Option ℚ) :
    apply_gates Reco.HOLD t m a v te n = (Reco.HOLD, []) := by
  simp [apply_gates]

/-- The overall score field of `score_stock_core`: the weighted sum, capped
at 5 on a severe red flag, rounded to one decimal. It is computed before
(and independently of) the coverage short-circuit. -/
theorem score_stock_core_overall (inp : ScoreInputs) (w : Weights) :
    (score_stock_core inp w).overall_score =
      round1 (if inp.has_red_flag then min (raw_weighted inp w) 5
              else raw_weighted inp w) := by
  unfold score_stock_core
  split_ifs <;> rfl

/-- With full coverage, the recommendation field of `score_stock_core` is
the gated threshold recommendation of the rounded overall score. -/
theorem score_stock_core_rec (inp : ScoreInputs) (w : Weights)
    (hc : ¬ coverage_count inp < 4) :
    (score_stock_core inp w).recommendation =
      (apply_gates (get_recommendation ((score_stock_core inp w).overall_score))
        (some (inp.trend_score.getD 5)) (some (inp.macd_score.getD 5))
        (some (inp.adx_score.getD 5)) (some (inp.volume_score.getD 5))
        inp.technical_score inp.news_score).1 := by
  rw [score_stock_core_overall]
  simp only [score_stock_core]
  rw [if_neg hc]

/-- C7: with a severe legal red flag, the overall score is min(score, 5)
after the renormalized weighted sum and before rounding; consequently with
all four components present and a raw weighted score of 9.0, the output
overall score is 5.0 and the final recommendation is HOLD, not
STRONG BUY. -/
theorem C7_red_flag_cap (inp : ScoreInputs) (w : Weights)
    (h : inp.has_red_flag = true) :
    (score_stock_core inp w).overall_score =
      round1 (min (raw_weighted inp w) 5) ∧
    (raw_weighted inp w = 9 → coverage_count inp = 4 →
      (score_stock_core inp w).overall_score = 5 ∧
      (score_stock_core inp w).recommendation = Reco.HOLD) := by
  have hover : (score_stock_core inp w).overall_score =
      round1 (min (raw_weighted inp w) 5) := by
    rw [score_stock_core_overall]
    simp [h]
  refine ⟨hover, fun h9 hc => ?_⟩
  have hov5 : (score_stock_core inp w).overall_score = 5 := by
    rw [hover, h9, show min (9:ℚ) 5 = 5 by norm_num]
    norm_num [round1, bankers_round]
  refine ⟨hov5, ?_⟩
  rw [score_stock_core_rec inp w (by omega), hov5,
    show get_recommendation 5 = Reco.HOLD by
      norm_num [get_recommendation, THRESHOLDS_strong_buy, THRESHOLDS_buy,
        THRESHOLDS_hold],
    apply_gates_hold]

/-- C7 witness: all four components at 9 with the default weights give a
raw weighted score of 9; with the red flag set the output is 5.0/HOLD. -/
theorem C7_red_flag_cap_witness :
    (score_stock_core ⟨some 9, some 9, some 9, some 9, some 8, some 7,
      some 7, some 7, true⟩ COMPONENT_WEIGHTS).overall_score = 5 ∧
    (score_stock_core ⟨some 9, some 9, some 9, some 9, some 8, some 7,
      some 7, some 7, true⟩ COMPONENT_WEIGHTS).recommendation = Reco.HOLD :=
  (C7_red_flag_cap ⟨some 9, some 9, some 9, some 9, some 8, some 7, some 7,
      some 7, true⟩ COMPONENT_WEIGHTS rfl).2
    (by norm_num [raw_weighted, active_pairs, total_weight, fundamental_used,
      news_used, apply_influence_caps, orFalsy, COMPONENT_WEIGHTS,
      GATES_tech_min_for_news_buy])
    (by decide)

theorem list_map_div_sum (l : List (ℚ × ℚ)) (c : ℚ) :
    (l.map (fun p => p.1 / c)).sum = (l.map Prod.fst).sum / c := by
  induction l with
  | nil => simp
  | cons a t ih => simp [ih, add_div]

/-- The total active weight is positive whenever at least one component is
present and the weights come from one of the three scoring profiles. -/
theorem total_weight_pos (inp : ScoreInputs) (w : Weights)
    (hw : w = COMPONENT_WEIGHTS ∨ w = WATCHLIST_SWING_WEIGHTS ∨
      w = PORTFOLIO_LONG_TERM_WEIGHTS)
    (hc : 1 ≤ coverage_count inp) :
    0 < total_weight inp w := by
  obtain ⟨tS, fS, nS, lS, tr, mc, ad, vo, rf⟩ := inp
  rcases hw with rfl | rfl | rfl <;>
    cases tS <;> cases fS <;> cases nS <;> cases lS <;>
    simp_all [total_weight, active_pairs, coverage_count, fundamental_used,
      news_used, COMPONENT_WEIGHTS, WATCHLIST_SWING_WEIGHTS,
      PORTFOLIO_LONG_TERM_WEIGHTS] <;>
    norm_num

/-- C8: for every non-empty subset of present components and each of the
three scoring profiles, the renormalized weights used in the weighted sum
add up to 1.0 within 1e-9 (in the rational embedding they add up to
exactly 1). -/
theorem C8_renormalized_weights_sum (inp : ScoreInputs) (w : Weights)
    (hw : w = COMPONENT_WEIGHTS ∨ w = WATCHLIST_SWING_WEIGHTS ∨
      w = PORTFOLIO_LONG_TERM_WEIGHTS)
    (hc : 1 ≤ coverage_count inp) :
    |(normalized_weights inp w).sum - 1| ≤ 1/1000000000 := by
  have hT : 0 < total_weight inp w := total_weight_pos inp w hw hc
  have hone : (normalized_weights inp w).sum = 1 := by
    rw [normalized_weights, list_map_div_sum]
    exact div_self (ne_of_gt hT)
  rw [hone]
  norm_num

/-- C8 witness: all four components present under the default profile. -/
theorem C8_renormalized_weights_sum_witness :
    |(normalized_weights ⟨some 9, some 8, some 7, some 6, some 5, some 5,
      some 5, some 5, false⟩ COMPONENT_WEIGHTS).sum - 1| ≤ 1/1000000000 :=
  C8_renormalized_weights_sum ⟨some 9, some 8, some 7, some 6, some 5,
    some 5, some 5, some 5, false⟩ COMPONENT_WEIGHTS (Or.inl rfl) (by decide)

/-- C9 counterexample: with the symbol argument present, the default
profile, and every upstream component artifact missing (all component
scores absent, coverage 0), the CLI still exits 0 — missing upstream data
does not produce a non-zero exit code. -/
theorem C9_counterexample_missing_data_exits_zero :
    main_exit_code true none
      ⟨none, none, none, none, none, none, none, none, false⟩ = 0 ∧
    coverage_count ⟨none, none, none, none, none, none, none, none, false⟩ =
      0 := by
  constructor
  · rfl
  · rfl

/-- C9 amended: the CLI exits 1 when no symbol argument is given; with a
symbol it exits 0 whenever the profile name resolves — including when all
upstream component artifacts are missing, which degrades to INSUFFICIENT
DATA rather than failing — and exits 1 exactly when `score_stock` raises,
i.e. on an unknown scoring profile name. -/
theorem C9_exit_codes_amended (inp : ScoreInputs) (profile : Option String) :
    main_exit_code false profile inp = 1 ∧
    (∀ w, get_component_weights profile = .ok w →
      main_exit_code true profile inp = 0) ∧
    (∀ e, get_component_weights profile = .error e →
      main_exit_code true profile inp = 1) := by
  refine ⟨rfl, ?_, ?_⟩
  · intro w hw
    simp [main_exit_code, score_stock, hw]
  · intro e he
    simp [main_exit_code, score_stock, he]

/-- C9 amended witness: a valid profile with no artifacts exits 0; an
unknown profile name exits 1. -/
theorem C9_exit_codes_amended_witness :
    main_exit_code true (some "watchlist_swing")
      ⟨none, none, none, none, none, none, none, none, false⟩ = 0 ∧
    main_exit_code true (some "bogus")
      ⟨none, none, none, none, none, none, none, none, false⟩ = 1 :=
  ⟨(C9_exit_codes_amended ⟨none, none, none, none, none, none, none, none,
      false⟩ (some "watchlist_swing")).2.1 WATCHLIST_SWING_WEIGHTS rfl,
   (C9_exit_codes_amended ⟨none, none, none, none, none, none, none, none,
      false⟩ (some "bogus")).2.2 ("Unknown scoring profile: " ++ "bogus")
      rfl⟩

/-- C10: from an initial STRONG BUY, gate 3 (sentiment_without_confirmation)
never fires — gates 1 and 2 demote STRONG BUY straight to HOLD and gate 4
runs only afterwards, so the recommendation is never BUY when gate 3 is
evaluated — and every flag produced is one of weak_trend_gate,
trendless_no_volume_gate, strong_buy_alignment_failed. -/
theorem trendless_on_hold (adx volume : ℚ) (fl : List String) :
    trendless_no_volume_gate_step adx volume ⟨Reco.HOLD, fl⟩ =
      ⟨Reco.HOLD, fl⟩ := by
  simp [trendless_no_volume_gate_step]

theorem sentiment_on_hold (news tech : ℚ) (fl : List String) :
    sentiment_gate_step news tech ⟨Reco.HOLD, fl⟩ = ⟨Reco.HOLD, fl⟩ := by
  simp [sentiment_gate_step]

theorem alignment_on_hold (trend macd adx : ℚ) (fl : List String) :
    strong_buy_alignment_step trend macd adx ⟨Reco.HOLD, fl⟩ =
      ⟨Reco.HOLD, fl⟩ := by
  simp [strong_buy_alignment_step]

theorem sentiment_on_strong_buy (news tech : ℚ) (fl : List String) :
    sentiment_gate_step news tech ⟨Reco.STRONG_BUY, fl⟩ =
      ⟨Reco.STRONG_BUY, fl⟩ := by
  simp [sentiment_gate_step]

theorem weak_trend_on_strong_buy (trend : ℚ) :
    weak_trend_gate_step trend ⟨Reco.STRONG_BUY, []⟩ =
        ⟨Reco.HOLD, ["weak_trend_gate"]⟩ ∨
      weak_trend_gate_step trend ⟨Reco.STRONG_BUY, []⟩ =
        ⟨Reco.STRONG_BUY, []⟩ := by
  unfold weak_trend_gate_step
  split_ifs <;> simp

theorem trendless_on_strong_buy (adx volume : ℚ) (fl : List String) :
    trendless_no_volume_gate_step adx volume ⟨Reco.STRONG_BUY, fl⟩ =
        ⟨Reco.HOLD, fl ++ ["trendless_no_volume_gate"]⟩ ∨
      trendless_no_volume_gate_step adx volume ⟨Reco.STRONG_BUY, fl⟩ =
        ⟨Reco.STRONG_BUY, fl⟩ := by
  unfold trendless_no_volume_gate_step
  split_ifs <;> simp

theorem alignment_on_strong_buy (trend macd adx : ℚ) (fl : List String) :
    strong_buy_alignment_step trend macd adx ⟨Reco.STRONG_BUY, fl⟩ =
        ⟨Reco.BUY, fl ++ ["strong_buy_alignment_failed"]⟩ ∨
      strong_buy_alignment_step trend macd adx ⟨Reco.STRONG_BUY, fl⟩ =
        ⟨Reco.STRONG_BUY, fl⟩ := by
  unfold strong_buy_alignment_step
  split_ifs <;> simp

/-- C10: from an initial STRONG BUY, gate 3 (sentiment_without_confirmation)
never fires — gates 1 and 2 demote STRONG BUY straight to HOLD and gate 4
runs only afterwards, so the recommendation is never BUY when gate 3 is
evaluated — and every flag produced is one of weak_trend_gate,
trendless_no_volume_gate, strong_buy_alignment_failed. -/
theorem C10_strong_buy_flag_subset (t m a v te n : Option ℚ) :
    "sentiment_without_confirmation" ∉
      (apply_gates Reco.STRONG_BUY t m a v te n).2 ∧
    ∀ f ∈ (apply_gates Reco.STRONG_BUY t m a v te n).2,
      f = "weak_trend_gate" ∨ f = "trendless_no_volume_gate" ∨
        f = "strong_buy_alignment_failed" := by
  rw [apply_gates_eq_steps]
  simp only [apply_gates_claim]
  rcases weak_trend_on_strong_buy (t.getD 5) with hw | hw <;> rw [hw]
  · rw [trendless_on_hold, sentiment_on_hold, alignment_on_hold]
    simp
  · rcases trendless_on_strong_buy (a.getD 5) (v.getD 5) [] with h2 | h2 <;>
      rw [h2]
    · rw [sentiment_on_hold, alignment_on_hold]
      simp
    · rw [sentiment_on_strong_buy]
      rcases alignment_on_strong_buy (t.getD 5) (m.getD 5) (a.getD 5) []
        with h4 | h4 <;> rw [h4] <;> simp

/-- C10 witness: with trend 3, the weak trend gate fires from STRONG BUY;
the sentiment gate does not, even with news 9 and technical 4. -/
theorem C10_strong_buy_flag_subset_witness :
    "sentiment_without_confirmation" ∉
      (apply_gates Reco.STRONG_BUY (some 3) (some 5) (some 5) (some 5)
        (some 4) (some 9)).2 ∧
    ("weak_trend_gate" = "weak_trend_gate" ∨
     "weak_trend_gate" = "trendless_no_volume_gate" ∨
     "weak_trend_gate" = "strong_buy_alignment_failed") := by
  have hstep : weak_trend_gate_step ((some (3:ℚ)).getD 5)
      ⟨Reco.STRONG_BUY, []⟩ = ⟨Reco.HOLD, ["weak_trend_gate"]⟩ := by
    unfold weak_trend_gate_step
    rw [if_pos ⟨by norm_num, Or.inr rfl⟩]
    rfl
  have hm : "weak_trend_gate" ∈ (apply_gates Reco.STRONG_BUY (some 3)
      (some 5) (some 5) (some 5) (some 4) (some 9)).2 := by
    rw [apply_gates_eq_steps]
    simp only [apply_gates_claim]
    rw [hstep, trendless_on_hold, sentiment_on_hold, alignment_on_hold]
    simp
  exact ⟨(C10_strong_buy_flag_subset (some 3) (some 5) (some 5) (some 5)
      (some 4) (some 9)).1,
    (C10_strong_buy_flag_subset (some 3) (some 5) (some 5) (some 5)
      (some 4) (some 9)).2 _ hm⟩

end PortfolioAnalyzer
